import Mathlib

/-!
Shallow embedding of the HC-SR04 ultrasonic sensor driver (hcsr04.py).

Modelling conventions:
- Python floats are idealised as real numbers; user-supplied temperatures are
  modelled as rationals (so range validation is decidable), cast to the reals
  where the speed-of-sound formula needs them.
- The platform primitive `machine.time_pulse_us` is external: its return value
  (an integer number of microseconds, negative on timeout) is passed to each
  operation as an explicit parameter `pulse_time`.
- Hardware side effects (trigger-pin writes, sleeps, the blocking pulse
  measurement) are recorded as an event trace, in program order.
- A raised Python exception is an `Except.error` carrying the exception that
  the source constructs; methods that mutate `self` return the new state
  explicitly, and on failure the state travels back unchanged.
-/

/-- The two exceptions the driver raises: the constructor and the temperature
update raise `Exception` with message `temperature out of range`; the
measurement path raises `Exception` with message `out of range`. -/
inductive HCError where
  | temperature_out_of_range
  | out_of_range
deriving DecidableEq, Repr

/-- Instance state of the driver: the fields assigned in `HCSR04.__init__`.
`trigger_value` records the last logical level written to the trigger pin. -/
structure HCSR04 where
  max_working_temp : ℚ
  min_working_temp : ℚ
  air_temperature : ℚ
  sound_speed : ℝ
  echo_timeout_us : ℤ
  trigger_value : ℕ

/-- `HCSR04._check_air_temp`: raises when
`self.min_working_temp > temperature or self.max_working_temp < temperature`,
otherwise returns the temperature unchanged. The bounds are passed explicitly
because at the call site (mid-construction) they are the two fields just
assigned. -/
def check_air_temp (min_working_temp max_working_temp temperature : ℚ) :
    Except HCError ℚ :=
  if min_working_temp > temperature ∨ max_working_temp < temperature then
    Except.error HCError.temperature_out_of_range
  else
    Except.ok temperature

/-- `HCSR04._get_sound_speed`: `20.05 * sqrt(self.air_temperature + 273.15)`,
divided by 1000 to convert m/s into mm/us. Takes the field it reads as a
parameter. -/
noncomputable def get_sound_speed (air_temperature : ℚ) : ℝ :=
  20.05 * Real.sqrt ((air_temperature : ℝ) + 273.15) / 1000

/-- `HCSR04.__init__`: sets the working-temperature bounds (70 and -15),
validates `air_temp`, computes the speed of sound from the validated
temperature, stores the echo timeout, and drives the trigger pin low.
The pin identifiers are opaque platform handles and are not part of the
model. Defaults in the source: `echo_timeout_us = 500*2*30`, `air_temp = 20`. -/
noncomputable def hcsr04_init (echo_timeout_us : ℤ) (air_temp : ℚ) :
    Except HCError HCSR04 :=
  let max_working_temp : ℚ := 70
  let min_working_temp : ℚ := -15
  match check_air_temp min_working_temp max_working_temp air_temp with
  | Except.error e => Except.error e
  | Except.ok t =>
      Except.ok
        { max_working_temp := max_working_temp
          min_working_temp := min_working_temp
          air_temperature := t
          sound_speed := get_sound_speed t
          echo_timeout_us := echo_timeout_us
          trigger_value := 0 }

/-- `HCSR04.update_air_temp`: re-checks the range against the stored bounds and
on success assigns `self.air_temperature = temperature`. Note: faithful to the
source, it does NOT recompute `self.sound_speed`. On failure the exception
propagates and the state is unchanged. -/
def update_air_temp (self : HCSR04) (temperature : ℚ) :
    HCSR04 × Except HCError Unit :=
  if self.min_working_temp > temperature ∨ self.max_working_temp < temperature then
    (self, Except.error HCError.temperature_out_of_range)
  else
    ({ self with air_temperature := temperature }, Except.ok ())

/-- One hardware side effect performed by `_send_pulse_and_wait`, in program
order: a write of a logical level to the trigger pin, a busy sleep of the
given number of microseconds, or the blocking call
`time_pulse_us(self.echo, level, timeout)` on the echo pin. -/
inductive Ev where
  | trigger_write (level : ℕ)
  | sleep (us : ℕ)
  | echo_time_pulse (level : ℕ) (timeout_us : ℤ)
deriving DecidableEq, Repr

/-- `HCSR04._send_pulse_and_wait`: trigger low, sleep 5 us, trigger high,
sleep 10 us, trigger low, then `time_pulse_us(self.echo, 1, self.echo_timeout_us)`.
`pulse_time` is the value that platform call returns (negative on timeout).
If `pulse_time < 0` the method raises `Exception` with message `out of range`,
otherwise it returns `pulse_time`. The first component is the trace of
hardware side effects. -/
def send_pulse_and_wait (self : HCSR04) (pulse_time : ℤ) :
    List Ev × Except HCError ℤ :=
  ([Ev.trigger_write 0, Ev.sleep 5, Ev.trigger_write 1, Ev.sleep 10,
    Ev.trigger_write 0, Ev.echo_time_pulse 1 self.echo_timeout_us],
   if pulse_time < 0 then Except.error HCError.out_of_range
   else Except.ok pulse_time)

/-- `HCSR04.distance_mm`: `int((self.sound_speed * pulse_time) // 2)`.
Python floor division on floats is the mathematical floor, and `int` of the
already integral float is the same integer, so the result is
`Int.floor (sound_speed * pulse_time / 2)`. -/
noncomputable def distance_mm (self : HCSR04) (pulse_time : ℤ) :
    List Ev × Except HCError ℤ :=
  let r := send_pulse_and_wait self pulse_time
  (r.1, r.2.map fun p => Int.floor (self.sound_speed * (p : ℝ) / 2))

/-- `HCSR04.distance_cm`: `(self.sound_speed * pulse_time) / 20`. -/
noncomputable def distance_cm (self : HCSR04) (pulse_time : ℤ) :
    List Ev × Except HCError ℝ :=
  let r := send_pulse_and_wait self pulse_time
  (r.1, r.2.map fun p => self.sound_speed * (p : ℝ) / 20)

/-- `HCSR04.distance_in`: `(self.sound_speed * pulse_time) / 50.8`. -/
noncomputable def distance_in (self : HCSR04) (pulse_time : ℤ) :
    List Ev × Except HCError ℝ :=
  let r := send_pulse_and_wait self pulse_time
  (r.1, r.2.map fun p => self.sound_speed * (p : ℝ) / 50.8)

/-- The level of the last trigger-pin write in a trace, if any. -/
def last_trigger_write (tr : List Ev) : Option ℕ :=
  (tr.filterMap fun e =>
    match e with
    | Ev.trigger_write v => some v
    | _ => none).getLast?

/-- A concrete state used to instantiate universally quantified theorems:
bounds as set by the constructor, temperature 20 °C, and an arbitrary
rational stand-in for the speed of sound. -/
noncomputable def sampleState : HCSR04 :=
  { max_working_temp := 70
    min_working_temp := -15
    air_temperature := 20
    sound_speed := 343 / 1000
    echo_timeout_us := 30000
    trigger_value := 0 }

/-- The state the constructor produces for the default arguments
(timeout 30000 us, 20 °C), with the genuinely computed speed of sound. -/
noncomputable def stateAt20 : HCSR04 :=
  { max_working_temp := 70
    min_working_temp := -15
    air_temperature := 20
    sound_speed := get_sound_speed 20
    echo_timeout_us := 30000
    trigger_value := 0 }

/-- Claim C1 (code bug evidence): starting from the constructed state for
20 °C, a successful `update_air_temp 0` leaves `sound_speed` at the value
computed for 20 °C, and that value differs from the speed of sound at 0 °C,
so the claimed consistency between `sound_speed` and `air_temperature` fails
after the update. -/
theorem update_air_temp_stale_sound_speed :
    ((hcsr04_init 30000 20).map fun s => (update_air_temp s 0).1.sound_speed)
      = Except.ok (get_sound_speed 20) ∧
    get_sound_speed 20 ≠ get_sound_speed 0 := by
  constructor
  · rfl
  · have hlt : Real.sqrt (((0 : ℚ) : ℝ) + 273.15)
        < Real.sqrt (((20 : ℚ) : ℝ) + 273.15) := by
      apply Real.sqrt_lt_sqrt <;> push_cast <;> norm_num
    have hlt2 : get_sound_speed 0 < get_sound_speed 20 := by
      unfold get_sound_speed
      linarith [hlt]
    exact ne_of_gt hlt2

/-- Claim C2 (counterexample): the failure value returned when the platform
reports the timeout sentinel (-2) is the very same exception as the one
returned for any other negative reported width (-1): there is a single
`out of range` failure, not two distinct inspectable values. -/
theorem timeout_and_negative_width_same_error :
    (distance_mm sampleState (-2)).2 = (distance_mm sampleState (-1)).2 ∧
    (distance_mm sampleState (-2)).2 = Except.error HCError.out_of_range := by
  constructor <;> rfl

/-- Claim C2 (amended): whenever the platform pulse measurement reports a
negative value — the timeout sentinel or a negative width — every distance
operation fails with the single `out of range` exception, propagated from
`_send_pulse_and_wait` unchanged and never converted to a default distance. -/
theorem distance_ops_propagate_out_of_range (s : HCSR04) (p : ℤ) (h : p < 0) :
    (send_pulse_and_wait s p).2 = Except.error HCError.out_of_range ∧
    (distance_mm s p).2 = Except.error HCError.out_of_range ∧
    (distance_cm s p).2 = Except.error HCError.out_of_range ∧
    (distance_in s p).2 = Except.error HCError.out_of_range := by
  refine ⟨?_, ?_, ?_, ?_⟩ <;>
    simp [send_pulse_and_wait, distance_mm, distance_cm, distance_in,
      Except.map, if_pos h]

/-- Witness for the amended C2 theorem at the concrete input -2. -/
theorem distance_ops_propagate_out_of_range_witness :
    (-2 : ℤ) < 0 ∧
    ((send_pulse_and_wait sampleState (-2)).2 = Except.error HCError.out_of_range ∧
     (distance_mm sampleState (-2)).2 = Except.error HCError.out_of_range ∧
     (distance_cm sampleState (-2)).2 = Except.error HCError.out_of_range ∧
     (distance_in sampleState (-2)).2 = Except.error HCError.out_of_range) :=
  ⟨by decide, distance_ops_propagate_out_of_range sampleState (-2) (by decide)⟩

/-- Claim C3: construction and the temperature update accept `t` exactly when
`-15 ≤ t ≤ 70` (both bounds inclusive); outside that range they fail with the
`temperature out of range` exception and produce no mutated state. -/
theorem temp_validation_iff (eto : ℤ) (t : ℚ) (s : HCSR04)
    (hmin : s.min_working_temp = -15) (hmax : s.max_working_temp = 70) :
    ((∃ s0, hcsr04_init eto t = Except.ok s0) ↔ (-15 ≤ t ∧ t ≤ 70)) ∧
    ((update_air_temp s t).2 = Except.ok () ↔ (-15 ≤ t ∧ t ≤ 70)) ∧
    (¬(-15 ≤ t ∧ t ≤ 70) →
      hcsr04_init eto t = Except.error HCError.temperature_out_of_range ∧
      update_air_temp s t = (s, Except.error HCError.temperature_out_of_range)) := by
  have hcond : ((-15 : ℚ) > t ∨ (70 : ℚ) < t) ↔ ¬(-15 ≤ t ∧ t ≤ 70) := by
    rw [not_and_or, not_le, not_le]
  by_cases hc : (-15 : ℚ) > t ∨ (70 : ℚ) < t
  · have hne : ¬(-15 ≤ t ∧ t ≤ 70) := hcond.mp hc
    refine ⟨?_, ?_, ?_⟩ <;>
      simp [hcsr04_init, check_air_temp, update_air_temp, hmin, hmax,
        if_pos hc, hne]
  · have hle : -15 ≤ t ∧ t ≤ 70 := not_not.mp (fun hn => hc (hcond.mpr hn))
    refine ⟨?_, ?_, ?_⟩ <;>
      simp [hcsr04_init, check_air_temp, update_air_temp, hmin, hmax,
        if_neg hc, hle]

/-- Witness for C3 at concrete inputs: the sample state with the constructed
bounds and the in-range temperature 20. -/
theorem temp_validation_iff_witness :
    (sampleState.min_working_temp = -15 ∧ sampleState.max_working_temp = 70) ∧
    (((∃ s0, hcsr04_init 30000 20 = Except.ok s0) ↔ ((-15 : ℚ) ≤ 20 ∧ (20 : ℚ) ≤ 70)) ∧
     ((update_air_temp sampleState 20).2 = Except.ok () ↔ ((-15 : ℚ) ≤ 20 ∧ (20 : ℚ) ≤ 70)) ∧
     (¬((-15 : ℚ) ≤ 20 ∧ (20 : ℚ) ≤ 70) →
       hcsr04_init 30000 20 = Except.error HCError.temperature_out_of_range ∧
       update_air_temp sampleState 20 =
         (sampleState, Except.error HCError.temperature_out_of_range))) :=
  ⟨⟨rfl, rfl⟩, temp_validation_iff 30000 20 sampleState rfl rfl⟩

/-- Claim C4: for an out-of-range temperature the update fails and returns the
state exactly as it was: both `air_temperature` and `sound_speed` (indeed every
field) are unchanged. -/
theorem failed_update_leaves_state (s : HCSR04) (t : ℚ)
    (hmin : s.min_working_temp = -15) (hmax : s.max_working_temp = 70)
    (h : t < -15 ∨ 70 < t) :
    update_air_temp s t = (s, Except.error HCError.temperature_out_of_range) := by
  unfold update_air_temp
  rw [hmin, hmax, if_pos h]

/-- Witness for C4 at the concrete out-of-range temperature 100. -/
theorem failed_update_leaves_state_witness :
    (sampleState.min_working_temp = -15 ∧ sampleState.max_working_temp = 70 ∧
      ((100 : ℚ) < -15 ∨ (70 : ℚ) < 100)) ∧
    update_air_temp sampleState 100 =
      (sampleState, Except.error HCError.temperature_out_of_range) :=
  ⟨⟨rfl, rfl, Or.inr (by norm_num)⟩,
    failed_update_leaves_state sampleState 100 rfl rfl (Or.inr (by norm_num))⟩

/-- Claim C5: on a successfully measured pulse width, `distance_mm` returns
the floor of `sound_speed * pulse_time / 2`: the division by 2 is applied to
the product, after the multiplication. -/
theorem distance_mm_formula (s : HCSR04) (p : ℤ) (h : 0 ≤ p) :
    (distance_mm s p).2 = Except.ok (Int.floor (s.sound_speed * (p : ℝ) / 2)) := by
  have hn : ¬ p < 0 := not_lt.mpr h
  simp [distance_mm, send_pulse_and_wait, Except.map, if_neg hn]

/-- Witness for C5: with speed 0.343 mm/us and a 100 us pulse the result is
the concrete integer 17 (`floor 17.15`). -/
theorem distance_mm_formula_witness :
    (0 : ℤ) ≤ 100 ∧
    (distance_mm sampleState 100).2 =
      Except.ok (Int.floor (sampleState.sound_speed * ((100 : ℤ) : ℝ) / 2)) ∧
    Int.floor (sampleState.sound_speed * ((100 : ℤ) : ℝ) / 2) = 17 :=
  ⟨by decide, distance_mm_formula sampleState 100 (by decide), by
    show Int.floor ((343 / 1000 : ℝ) * ((100 : ℤ) : ℝ) / 2) = 17
    rw [Int.floor_eq_iff] <;> norm_num⟩

/-- Claim C6: on a successfully measured pulse width, `distance_cm` returns
`sound_speed * pulse_time / 20` and `distance_in` returns
`sound_speed * pulse_time / 50.8`, with no intermediate truncation. -/
theorem distance_cm_in_formulas (s : HCSR04) (p : ℤ) (h : 0 ≤ p) :
    (distance_cm s p).2 = Except.ok (s.sound_speed * (p : ℝ) / 20) ∧
    (distance_in s p).2 = Except.ok (s.sound_speed * (p : ℝ) / 50.8) := by
  have hn : ¬ p < 0 := not_lt.mpr h
  constructor <;>
    simp [distance_cm, distance_in, send_pulse_and_wait, Except.map, if_neg hn]

/-- Witness for C6 at the sample state and a 100 us pulse. -/
theorem distance_cm_in_formulas_witness :
    (0 : ℤ) ≤ 100 ∧
    ((distance_cm sampleState 100).2 =
       Except.ok (sampleState.sound_speed * ((100 : ℤ) : ℝ) / 20) ∧
     (distance_in sampleState 100).2 =
       Except.ok (sampleState.sound_speed * ((100 : ℤ) : ℝ) / 50.8)) :=
  ⟨by decide, distance_cm_in_formulas sampleState 100 (by decide)⟩

/-- Claim C7: a measurement cycle performs, in order, trigger low, a 5 us
hold, trigger high, a 10 us hold, trigger low, and only then the echo pulse
measurement bounded by `echo_timeout_us`; the three distance operations
perform exactly this trace. -/
theorem trigger_sequence (s : HCSR04) (p : ℤ) :
    (send_pulse_and_wait s p).1 =
      [Ev.trigger_write 0, Ev.sleep 5, Ev.trigger_write 1, Ev.sleep 10,
       Ev.trigger_write 0, Ev.echo_time_pulse 1 s.echo_timeout_us] ∧
    (distance_mm s p).1 = (send_pulse_and_wait s p).1 ∧
    (distance_cm s p).1 = (send_pulse_and_wait s p).1 ∧
    (distance_in s p).1 = (send_pulse_and_wait s p).1 :=
  ⟨rfl, rfl, rfl, rfl⟩

/-- Claim C8: the trigger line is driven low at construction, and in every
measurement cycle the last trigger write before the echo measurement is a
write of 0, independently of whether the measurement then succeeds or
fails. -/
theorem trigger_deasserted (eto : ℤ) (t : ℚ) (s s0 : HCSR04) (p : ℤ)
    (h : hcsr04_init eto t = Except.ok s) :
    s.trigger_value = 0 ∧
    ∃ pre, (send_pulse_and_wait s0 p).1
        = pre ++ [Ev.echo_time_pulse 1 s0.echo_timeout_us] ∧
      last_trigger_write pre = some 0 := by
  constructor
  · by_cases hc : (-15 : ℚ) > t ∨ (70 : ℚ) < t
    · have heq : hcsr04_init eto t = Except.error HCError.temperature_out_of_range := by
        simp only [hcsr04_init, check_air_temp, if_pos hc]
      rw [heq] at h
      exact Except.noConfusion h
    · have heq : hcsr04_init eto t = Except.ok
          { max_working_temp := 70
            min_working_temp := -15
            air_temperature := t
            sound_speed := get_sound_speed t
            echo_timeout_us := eto
            trigger_value := 0 } := by
        simp only [hcsr04_init, check_air_temp, if_neg hc]
      rw [heq] at h
      injection h with h2
      rw [← h2]
  · exact ⟨[Ev.trigger_write 0, Ev.sleep 5, Ev.trigger_write 1, Ev.sleep 10,
      Ev.trigger_write 0], rfl, rfl⟩

/-- Witness for C8: the default construction succeeds with the trigger low,
and a failing measurement (timeout sentinel -2) still ends its trigger pulse
with a write of 0 before the echo wait. -/
theorem trigger_deasserted_witness :
    hcsr04_init 30000 20 = Except.ok stateAt20 ∧
    (stateAt20.trigger_value = 0 ∧
     ∃ pre, (send_pulse_and_wait sampleState (-2)).1
         = pre ++ [Ev.echo_time_pulse 1 sampleState.echo_timeout_us] ∧
       last_trigger_write pre = some 0) :=
  ⟨rfl, trigger_deasserted 30000 20 stateAt20 sampleState (-2) rfl⟩

/-- Claim C9: with the relevant sensor state fixed (equal `sound_speed`),
two successful `distance_cm` computations on the same measured pulse width
return the same value; and updating the temperature to the value already
stored leaves `sound_speed` (and `air_temperature`) numerically unchanged. -/
theorem distance_cm_idempotent (s1 s2 : HCSR04) (p : ℤ) (t : ℚ)
    (hss : s1.sound_speed = s2.sound_speed) (hp : 0 ≤ p)
    (ht : s1.air_temperature = t) :
    ((distance_cm s1 p).2 = Except.ok (s1.sound_speed * (p : ℝ) / 20) ∧
     (distance_cm s2 p).2 = Except.ok (s1.sound_speed * (p : ℝ) / 20)) ∧
    (update_air_temp s1 t).1.sound_speed = s1.sound_speed ∧
    (update_air_temp s1 t).1.air_temperature = s1.air_temperature := by
  have hn : ¬ p < 0 := not_lt.mpr hp
  refine ⟨⟨?_, ?_⟩, ?_, ?_⟩
  · simp [distance_cm, send_pulse_and_wait, Except.map, if_neg hn]
  · simp [distance_cm, send_pulse_and_wait, Except.map, if_neg hn, hss]
  · unfold update_air_temp
    split <;> rfl
  · unfold update_air_temp
    split
    · rfl
    · simpa using ht.symm

/-- Witness for C9 at the sample state, pulse 100 us, temperature 20 °C. -/
theorem distance_cm_idempotent_witness :
    (sampleState.sound_speed = sampleState.sound_speed ∧ (0 : ℤ) ≤ 100 ∧
      sampleState.air_temperature = 20) ∧
    (((distance_cm sampleState 100).2 =
        Except.ok (sampleState.sound_speed * ((100 : ℤ) : ℝ) / 20) ∧
      (distance_cm sampleState 100).2 =
        Except.ok (sampleState.sound_speed * ((100 : ℤ) : ℝ) / 20)) ∧
     (update_air_temp sampleState 20).1.sound_speed = sampleState.sound_speed ∧
     (update_air_temp sampleState 20).1.air_temperature = sampleState.air_temperature) :=
  ⟨⟨rfl, by decide, rfl⟩,
    distance_cm_idempotent sampleState sampleState 100 20 rfl (by decide) rfl⟩

/-- Claim C10: for an operating temperature in [-15, 70] the computed speed of
sound is strictly positive, and hence for a nonnegative measured pulse width
all three distance results are nonnegative. -/
theorem sound_speed_pos_distances_nonneg (s : HCSR04) (t : ℚ) (p : ℤ)
    (hs : s.sound_speed = get_sound_speed t)
    (h1 : -15 ≤ t) (h2 : t ≤ 70) (hp : 0 ≤ p) :
    0 < s.sound_speed ∧
    (∀ m : ℤ, (distance_mm s p).2 = Except.ok m → 0 ≤ m) ∧
    (∀ c : ℝ, (distance_cm s p).2 = Except.ok c → 0 ≤ c) ∧
    (∀ i : ℝ, (distance_in s p).2 = Except.ok i → 0 ≤ i) := by
  have hn : ¬ p < 0 := not_lt.mpr hp
  have htR : (0 : ℝ) < (t : ℝ) + 273.15 := by
    have h1R : ((-15 : ℚ) : ℝ) ≤ (t : ℝ) := by exact_mod_cast h1
    push_cast at h1R
    linarith
  have hsq : 0 < Real.sqrt ((t : ℝ) + 273.15) := Real.sqrt_pos.mpr htR
  have hpos : 0 < s.sound_speed := by
    rw [hs]
    unfold get_sound_speed
    linarith
  have hpR : (0 : ℝ) ≤ ((p : ℤ) : ℝ) := by exact_mod_cast hp
  have hprod : 0 ≤ s.sound_speed * (p : ℝ) := mul_nonneg (le_of_lt hpos) hpR
  refine ⟨hpos, ?_, ?_, ?_⟩
  · intro m hm
    simp [distance_mm, send_pulse_and_wait, Except.map, if_neg hn] at hm
    rw [← hm]
    exact Int.floor_nonneg.mpr (div_nonneg hprod (by norm_num))
  · intro c hc
    simp [distance_cm, send_pulse_and_wait, Except.map, if_neg hn] at hc
    rw [← hc]
    exact div_nonneg hprod (by norm_num)
  · intro i hi
    simp [distance_in, send_pulse_and_wait, Except.map, if_neg hn] at hi
    rw [← hi]
    exact div_nonneg hprod (by norm_num)

/-- Witness for C10 at 20 °C with a 100 us pulse, using the genuinely
constructed state. -/
theorem sound_speed_pos_distances_nonneg_witness :
    (stateAt20.sound_speed = get_sound_speed 20 ∧ (-15 : ℚ) ≤ 20 ∧
      (20 : ℚ) ≤ 70 ∧ (0 : ℤ) ≤ 100) ∧
    (0 < stateAt20.sound_speed ∧
     (∀ m : ℤ, (distance_mm stateAt20 100).2 = Except.ok m → 0 ≤ m) ∧
     (∀ c : ℝ, (distance_cm stateAt20 100).2 = Except.ok c → 0 ≤ c) ∧
     (∀ i : ℝ, (distance_in stateAt20 100).2 = Except.ok i → 0 ≤ i)) :=
  ⟨⟨rfl, by decide, by decide, by decide⟩,
    sound_speed_pos_distances_nonneg stateAt20 20 100 rfl (by decide) (by decide)
      (by decide)⟩
